import Mathlib

/-!
Verification development for the DTBase entity-attribute-value core:
the typed-value schema declared in `dtbase/core/structure.py`, the
datatype-to-table dictionaries and `check_datatype` from
`dtbase/core/utils.py`, and the dynamic query builder of
`dtbase/core/queries.py` (`location_identifiers_by_schema`,
`select_location_by_coordinates`, `sensor_measures_by_type`).

Tables are embedded as lists of row structures; SQL queries as list
comprehensions over those rows (inner-join semantics: nested products
filtered by the join conditions); Python exceptions as `Except String`.
The SQL `double precision` column is modelled with the carrier `Rat`,
which is adequate because the query layer only ever compares stored
values for equality, never computes with them.
-/

/-- The `value_datatype` SQL enum from structure.py:
`Enum ("string", "float", "integer", "boolean")`. -/
inductive Datatype where
  | string
  | float
  | integer
  | boolean
deriving DecidableEq, Repr

/-- The string tag of a `Datatype` as stored in the enum column. -/
def datatype_tag : Datatype → String
  | .string => "string"
  | .float => "float"
  | .integer => "integer"
  | .boolean => "boolean"

/-- A scalar value as it appears in a typed value column or a filter
argument.  One constructor per SQL column type used by the value tables. -/
inductive DBValue where
  | s (v : String)
  | i (v : Int)
  | f (v : Rat)
  | b (v : Bool)
deriving DecidableEq, Repr

/-- A Python runtime value, as far as `check_datatype` inspects it.
`bool` is a distinct constructor even though Python bool is a subtype of
int; the subtyping is captured in the `isinstance` functions below. -/
inductive PyVal where
  | str (s : String)
  | int (n : Int)
  | float (q : Rat)
  | bool (b : Bool)
deriving DecidableEq, Repr

/-- Python `isinstance (v, str)`. -/
def isinstance_str : PyVal → Bool
  | .str _ => true
  | _ => false

/-- Python `isinstance (v, int)`: true for ints and also for bools,
because Python bool is a subclass of int. -/
def isinstance_int : PyVal → Bool
  | .int _ => true
  | .bool _ => true
  | _ => false

/-- Python `isinstance (v, float)`. -/
def isinstance_float : PyVal → Bool
  | .float _ => true
  | _ => false

/-- Python `isinstance (v, bool)`. -/
def isinstance_bool : PyVal → Bool
  | .bool _ => true
  | _ => false

/-- The name of the declared datatype whose Python carrier is the exact
runtime type of the value: str is string, int is integer, float is float,
bool is boolean. -/
def py_datatype_name : PyVal → String
  | .str _ => "string"
  | .int _ => "integer"
  | .float _ => "float"
  | .bool _ => "boolean"

/-- `check_datatype` from utils.py: dispatch on the datatype name and
test the value with `isinstance`; raise ValueError on an unrecognised
name. -/
def check_datatype (value : PyVal) (datatype_name : String) : Except String Bool :=
  if datatype_name = "string" then .ok (isinstance_str value)
  else if datatype_name = "integer" then .ok (isinstance_int value)
  else if datatype_name = "float" then .ok (isinstance_float value)
  else if datatype_name = "boolean" then .ok (isinstance_bool value)
  else .error ("Unrecognised datatype: " ++ datatype_name)

/-- A key of the `*_value_class_dict` dictionaries in utils.py: either one
of the Python type objects `bool`, `float`, `int`, `str`, or a string
literal. -/
inductive PyKey where
  | pyBool
  | pyFloat
  | pyInt
  | pyStr
  | strLit (s : String)
deriving DecidableEq, Repr

/-- Python dict lookup on an association list (the dictionaries below have
pairwise distinct keys, so first-match lookup is exact). -/
def dict_lookup {β : Type} : List (PyKey × β) → PyKey → Option β
  | [], _ => none
  | (k, v) :: rest, key => if k = key then some v else dict_lookup rest key

/-- The four location value tables of structure.py. -/
inductive LocationValueTable where
  | stringValue
  | integerValue
  | floatValue
  | booleanValue
deriving DecidableEq, Repr

/-- The four sensor reading tables of structure.py. -/
inductive SensorReadingTable where
  | stringReading
  | integerReading
  | floatReading
  | booleanReading
deriving DecidableEq, Repr

/-- The four model value tables of structure.py. -/
inductive ModelValueTable where
  | stringValue
  | integerValue
  | floatValue
  | booleanValue
deriving DecidableEq, Repr

/-- `location_value_class_dict` from utils.py. -/
def location_value_class_dict : List (PyKey × LocationValueTable) :=
  [ (.pyBool, .booleanValue),
    (.pyFloat, .floatValue),
    (.pyInt, .integerValue),
    (.pyStr, .stringValue),
    (.strLit "boolean", .booleanValue),
    (.strLit "float", .floatValue),
    (.strLit "integer", .integerValue),
    (.strLit "string", .stringValue) ]

/-- `model_value_class_dict` from utils.py. -/
def model_value_class_dict : List (PyKey × ModelValueTable) :=
  [ (.pyBool, .booleanValue),
    (.pyFloat, .floatValue),
    (.pyInt, .integerValue),
    (.pyStr, .stringValue),
    (.strLit "boolean", .booleanValue),
    (.strLit "float", .floatValue),
    (.strLit "integer", .integerValue),
    (.strLit "string", .stringValue) ]

/-- `sensor_reading_class_dict` from utils.py. -/
def sensor_reading_class_dict : List (PyKey × SensorReadingTable) :=
  [ (.pyBool, .booleanReading),
    (.pyFloat, .floatReading),
    (.pyInt, .integerReading),
    (.pyStr, .stringReading),
    (.strLit "boolean", .booleanReading),
    (.strLit "float", .floatReading),
    (.strLit "integer", .integerReading),
    (.strLit "string", .stringReading) ]

/-- The location value table that the dictionary assigns to each datatype
tag (stringValue for string, and so on); `location_value_class_of_tag`
below proves that `location_value_class_dict` computes exactly this. -/
def location_value_table_of_datatype : Datatype → LocationValueTable
  | .string => .stringValue
  | .float => .floatValue
  | .integer => .integerValue
  | .boolean => .booleanValue

/-- The sensor reading table assigned to each datatype tag. -/
def sensor_reading_table_of_datatype : Datatype → SensorReadingTable
  | .string => .stringReading
  | .float => .floatReading
  | .integer => .integerReading
  | .boolean => .booleanReading

/-- The model value table assigned to each datatype tag. -/
def model_value_table_of_datatype : Datatype → ModelValueTable
  | .string => .stringValue
  | .float => .floatValue
  | .integer => .integerValue
  | .boolean => .booleanValue

/-- A row of `location_schema` (columns relevant to the queries). -/
structure LocationSchemaRow where
  id : Nat
  name : String
deriving DecidableEq, Repr

/-- A row of `location_identifier`. -/
structure LocationIdentifierRow where
  id : Nat
  name : String
  units : Option String
  datatype : Datatype
deriving DecidableEq, Repr

/-- A row of `location_schema_identifier_relation`. -/
structure LocationSchemaIdentifierRelationRow where
  schema_id : Nat
  identifier_id : Nat
deriving DecidableEq, Repr

/-- A row of `location`. -/
structure LocationRow where
  id : Nat
  schema_id : Nat
deriving DecidableEq, Repr

/-- A row of one of the four `location_*_value` tables.  All four tables
share this shape; which table a row lives in is recorded by which field
of `Database` holds it. -/
structure LocationValueRow where
  identifier_id : Nat
  location_id : Nat
  value : DBValue
deriving DecidableEq, Repr

/-- A row of `sensor_type`. -/
structure SensorTypeRow where
  id : Nat
  name : String
deriving DecidableEq, Repr

/-- A row of `sensor_measure`. -/
structure SensorMeasureRow where
  id : Nat
  name : String
  units : Option String
  datatype : Datatype
deriving DecidableEq, Repr

/-- A row of `sensor_type_measure_relation`. -/
structure SensorTypeMeasureRelationRow where
  type_id : Nat
  measure_id : Nat
deriving DecidableEq, Repr

/-- A row of one of the four `sensor_*_reading` tables.  The timestamp
column is modelled by a natural number. -/
structure SensorReadingRow where
  measure_id : Nat
  sensor_id : Nat
  timestamp : Nat
  value : DBValue
deriving DecidableEq, Repr

/-- A row of `model_product`. -/
structure ModelProductRow where
  id : Nat
  run_id : Nat
  measure_id : Nat
deriving DecidableEq, Repr

/-- A row of one of the four `model_*_value` tables. -/
structure ModelValueRow where
  product_id : Nat
  timestamp : Nat
  value : DBValue
deriving DecidableEq, Repr

/-- The stored state: one list per table of structure.py that the claims
touch. -/
structure Database where
  location_schemas : List LocationSchemaRow
  location_identifiers : List LocationIdentifierRow
  location_schema_identifier_relations : List LocationSchemaIdentifierRelationRow
  locations : List LocationRow
  location_string_values : List LocationValueRow
  location_integer_values : List LocationValueRow
  location_float_values : List LocationValueRow
  location_boolean_values : List LocationValueRow
  sensor_types : List SensorTypeRow
  sensor_measures : List SensorMeasureRow
  sensor_type_measure_relations : List SensorTypeMeasureRelationRow
  sensor_string_readings : List SensorReadingRow
  sensor_integer_readings : List SensorReadingRow
  sensor_float_readings : List SensorReadingRow
  sensor_boolean_readings : List SensorReadingRow
  model_products : List ModelProductRow
  model_string_values : List ModelValueRow
  model_integer_values : List ModelValueRow
  model_float_values : List ModelValueRow
  model_boolean_values : List ModelValueRow
deriving DecidableEq, Repr

/-- The rows of the location value table named by a
`LocationValueTable` tag. -/
def location_value_table_rows (db : Database) : LocationValueTable → List LocationValueRow
  | .stringValue => db.location_string_values
  | .integerValue => db.location_integer_values
  | .floatValue => db.location_float_values
  | .booleanValue => db.location_boolean_values

/-- The rows of the sensor reading table named by a
`SensorReadingTable` tag. -/
def sensor_reading_table_rows (db : Database) : SensorReadingTable → List SensorReadingRow
  | .stringReading => db.sensor_string_readings
  | .integerReading => db.sensor_integer_readings
  | .floatReading => db.sensor_float_readings
  | .booleanReading => db.sensor_boolean_readings

/-- The rows of the model value table named by a `ModelValueTable` tag. -/
def model_value_table_rows (db : Database) : ModelValueTable → List ModelValueRow
  | .stringValue => db.model_string_values
  | .integerValue => db.model_integer_values
  | .floatValue => db.model_float_values
  | .booleanValue => db.model_boolean_values

/-- A row of the `location_identifiers_by_schema` query of queries.py:
the selected, labelled columns. -/
structure IdentifiersBySchemaRow where
  schema_id : Nat
  schema_name : String
  identifier_id : Nat
  identifier_name : String
  identifier_units : Option String
  identifier_datatype : Datatype
deriving DecidableEq, Repr

/-- The shared shape of the two registry queries of queries.py: the
grouping table inner-joined with the relation table on
`relation.grouping_id = grouping.id`, then with the attribute table on
`attribute.id = relation.attribute_id`, selecting columns of the grouping
and attribute rows.  `gid` projects the grouping primary key, `rgid` and
`raid` the two foreign keys of a relation row, `aid` the attribute
primary key, and `mk` builds the selected output row. -/
def registry_join {G R A Row : Type} (gs : List G) (rs : List R) (attrs : List A)
    (gid : G → Nat) (rgid : R → Nat) (raid : R → Nat) (aid : A → Nat)
    (mk : G → A → Row) : List Row :=
  gs.flatMap fun g =>
    (rs.filter fun r => decide (rgid r = gid g)).flatMap fun r =>
      (attrs.filter fun a => decide (aid a = raid r)).map fun a => mk g a

/-- `location_identifiers_by_schema` from queries.py: LocationSchema
inner-joined with LocationSchemaIdentifierRelation on
`relation.schema_id = schema.id`, then with LocationIdentifier on
`identifier.id = relation.identifier_id`, selecting the labelled columns. -/
def location_identifiers_by_schema (db : Database) : List IdentifiersBySchemaRow :=
  registry_join db.location_schemas db.location_schema_identifier_relations
    db.location_identifiers
    (fun s => s.id) (fun rel => rel.schema_id) (fun rel => rel.identifier_id)
    (fun ident => ident.id)
    (fun s ident => ⟨s.id, s.name, ident.id, ident.name, ident.units, ident.datatype⟩)

/-- A row of the `sensor_measures_by_type` query of queries.py. -/
structure MeasuresByTypeRow where
  type_id : Nat
  type_name : String
  measure_id : Nat
  measure_name : String
  measure_units : Option String
  measure_datatype : Datatype
deriving DecidableEq, Repr

/-- `sensor_measures_by_type` from queries.py: SensorType inner-joined
with SensorTypeMeasureRelation on `relation.type_id = type.id`, then with
SensorMeasure on `measure.id = relation.measure_id`. -/
def sensor_measures_by_type (db : Database) : List MeasuresByTypeRow :=
  registry_join db.sensor_types db.sensor_type_measure_relations db.sensor_measures
    (fun t => t.id) (fun rel => rel.type_id) (fun rel => rel.measure_id)
    (fun m => m.id)
    (fun t m => ⟨t.id, t.name, m.id, m.name, m.units, m.datatype⟩)

/-- The registry restricted to one grouping: the subquery of
`select_location_by_coordinates` with its `schema_name` condition, before
projection to the three identifier columns. -/
def location_schema_registry (db : Database) (schema_name : String) :
    List IdentifiersBySchemaRow :=
  (location_identifiers_by_schema db).filter fun r =>
    decide (r.schema_name = schema_name)

/-- The sensor analogue: `sensor_measures_by_type` restricted to one
sensor type name, as its callers restrict it. -/
def sensor_type_registry (db : Database) (type_name : String) :
    List MeasuresByTypeRow :=
  (sensor_measures_by_type db).filter fun r => decide (r.type_name = type_name)

/-- The metadata query executed inside `select_location_by_coordinates`:
the registry subquery restricted to `schema_name`, projected to
`(identifier_id, identifier_name, identifier_datatype)`. -/
def schema_identifiers (db : Database) (schema_name : String) :
    List (Nat × String × Datatype) :=
  (location_schema_registry db schema_name).map fun r =>
    (r.identifier_id, r.identifier_name, r.identifier_datatype)

/-- The ValueError message of `select_location_by_coordinates` for a
keyword argument that is not an identifier of the schema. -/
def invalid_identifier_msg (key schema_name : String) : String :=
  "Location identifier " ++ key ++ " not valid for schema " ++ schema_name

/-- The loop of `select_location_by_coordinates` that checks every keyword
argument against the resolved identifier names, raising ValueError at the
first extraneous one. -/
def check_kwargs (schema_name : String) (identifier_names : List String) :
    List (String × DBValue) → Except String Unit
  | [] => .ok ()
  | (key, _) :: rest =>
    if key ∈ identifier_names then check_kwargs schema_name identifier_names rest
    else .error (invalid_identifier_msg key schema_name)

/-- One aliased value-table join built by `select_location_by_coordinates`:
the fresh alias of the value class chosen by the identifier datatype, the
join conditions `alias.location_id = Location.id` and
`alias.identifier_id = identifier_id` (the latter recorded here), the
optional condition `alias.value = filter_value`, and the label of the
selected value column. -/
structure LocationJoin where
  table : LocationValueTable
  identifier_id : Nat
  filter_value : Option DBValue
  label : String
deriving DecidableEq, Repr

/-- The lazy query object returned by `select_location_by_coordinates`:
it selects `Location.id` plus, for each join in order, the value column of
that join aliased to its label. -/
structure LocationQuery where
  joins : List LocationJoin
deriving DecidableEq, Repr

/-- The loop of `select_location_by_coordinates` that builds one join per
resolved identifier: look the value class up in
`location_value_class_dict` by datatype (a missing key would be a Python
KeyError), and add the value condition exactly when the identifier name
is among the keyword arguments. -/
def build_joins (kwargs : List (String × DBValue)) :
    List (Nat × String × Datatype) → Except String (List LocationJoin)
  | [] => .ok []
  | (id_id, id_name, id_datatype) :: rest =>
    match dict_lookup location_value_class_dict (.strLit (datatype_tag id_datatype)) with
    | none => .error ("KeyError: " ++ datatype_tag id_datatype)
    | some value_class =>
      match build_joins kwargs rest with
      | .error e => .error e
      | .ok js => .ok (⟨value_class, id_id, kwargs.lookup id_name, id_name⟩ :: js)

/-- `select_location_by_coordinates` from queries.py.  Keyword arguments
are modelled as an association list.  Phase 1 resolves the identifiers of
the schema (executing `schema_identifiers`); then every keyword argument
is validated; phase 2 assembles the join list.  Errors abort the call
with no query object. -/
def select_location_by_coordinates (db : Database) (schema_name : String)
    (kwargs : List (String × DBValue)) : Except String LocationQuery :=
  let identifiers := schema_identifiers db schema_name
  let identifier_names := identifiers.map fun x => x.2.1
  match check_kwargs schema_name identifier_names kwargs with
  | .error e => .error e
  | .ok _ =>
    match build_joins kwargs identifiers with
    | .error e => .error e
    | .ok joins => .ok ⟨joins⟩

/-- The join that `build_joins` constructs for one resolved identifier
triple under the given keyword arguments. -/
def joinOf (kwargs : List (String × DBValue)) (x : Nat × String × Datatype) :
    LocationJoin :=
  ⟨location_value_table_of_datatype x.2.2, x.1, kwargs.lookup x.2.1, x.2.1⟩

/-- Whether a candidate row satisfies the optional value condition of a
join. -/
def filterHolds (j : LocationJoin) (r : LocationValueRow) : Bool :=
  match j.filter_value with
  | none => true
  | some v => decide (r.value = v)

/-- The rows of the aliased value table that satisfy all the join
conditions of `j` for the location with id `locId`. -/
def joinCandidateRows (db : Database) (locId : Nat) (j : LocationJoin) :
    List LocationValueRow :=
  (location_value_table_rows db j.table).filter fun r =>
    decide (r.location_id = locId) && decide (r.identifier_id = j.identifier_id)
      && filterHolds j r

/-- All tuples of value-column entries produced by the inner joins for one
location: one candidate row chosen independently per aliased join. -/
def joinCombos (db : Database) (locId : Nat) : List LocationJoin → List (List DBValue)
  | [] => [[]]
  | j :: js =>
    (joinCandidateRows db locId j).flatMap fun r =>
      (joinCombos db locId js).map fun vs => r.value :: vs

/-- A row of the result set of a `LocationQuery`: the location id and the
labelled value columns. -/
structure ResultRow where
  id : Nat
  values : List (String × DBValue)
deriving DecidableEq, Repr

/-- Inner-join semantics of the query built by
`select_location_by_coordinates`: for each location, one result row per
tuple of value rows satisfying all join conditions. -/
def evalLocationQuery (db : Database) (q : LocationQuery) : List ResultRow :=
  db.locations.flatMap fun loc =>
    (joinCombos db loc.id q.joins).map fun vs =>
      ⟨loc.id, (q.joins.map fun j => j.label).zip vs⟩

/-- The cascade behaviour declared in structure.py for the foreign key of
each model value table to `model_product.id`: the string, integer and
boolean tables declare `ondelete CASCADE`; `ModelFloatValue` declares a
plain foreign key with no ondelete action. -/
def model_string_value_product_fk_cascades : Bool := true

/-- See `model_string_value_product_fk_cascades`. -/
def model_integer_value_product_fk_cascades : Bool := true

/-- See `model_string_value_product_fk_cascades`: `ModelFloatValue` in
structure.py declares `ForeignKey ("model_product.id")` with no ondelete
argument. -/
def model_float_value_product_fk_cascades : Bool := false

/-- See `model_string_value_product_fk_cascades`. -/
def model_boolean_value_product_fk_cascades : Bool := true

/-- SQL semantics of deleting a `model_product` row: dependent rows of
value tables whose foreign key declares ON DELETE CASCADE are deleted
with it; a dependent row behind a foreign key with no cascade action
makes the whole delete fail with a foreign key violation (the SQL default
NO ACTION), leaving the stored state unchanged. -/
def delete_model_product (db : Database) (pid : Nat) : Except String Database :=
  if (!model_string_value_product_fk_cascades &&
        db.model_string_values.any fun r => decide (r.product_id = pid)) ||
     (!model_integer_value_product_fk_cascades &&
        db.model_integer_values.any fun r => decide (r.product_id = pid)) ||
     (!model_float_value_product_fk_cascades &&
        db.model_float_values.any fun r => decide (r.product_id = pid)) ||
     (!model_boolean_value_product_fk_cascades &&
        db.model_boolean_values.any fun r => decide (r.product_id = pid))
  then .error "foreign key violation on model_product delete"
  else .ok { db with
    model_products := db.model_products.filter fun p => decide (p.id ≠ pid)
    model_string_values :=
      if model_string_value_product_fk_cascades then
        db.model_string_values.filter fun r => decide (r.product_id ≠ pid)
      else db.model_string_values
    model_integer_values :=
      if model_integer_value_product_fk_cascades then
        db.model_integer_values.filter fun r => decide (r.product_id ≠ pid)
      else db.model_integer_values
    model_float_values :=
      if model_float_value_product_fk_cascades then
        db.model_float_values.filter fun r => decide (r.product_id ≠ pid)
      else db.model_float_values
    model_boolean_values :=
      if model_boolean_value_product_fk_cascades then
        db.model_boolean_values.filter fun r => decide (r.product_id ≠ pid)
      else db.model_boolean_values }

/-- Replace the contents of one location value table. -/
def set_location_value_rows (db : Database) :
    LocationValueTable → List LocationValueRow → Database
  | .stringValue, l => { db with location_string_values := l }
  | .integerValue, l => { db with location_integer_values := l }
  | .floatValue, l => { db with location_float_values := l }
  | .booleanValue, l => { db with location_boolean_values := l }

/-- Replace the contents of one sensor reading table. -/
def set_sensor_reading_rows (db : Database) :
    SensorReadingTable → List SensorReadingRow → Database
  | .stringReading, l => { db with sensor_string_readings := l }
  | .integerReading, l => { db with sensor_integer_readings := l }
  | .floatReading, l => { db with sensor_float_readings := l }
  | .booleanReading, l => { db with sensor_boolean_readings := l }

/-- Replace the contents of one model value table. -/
def set_model_value_rows (db : Database) :
    ModelValueTable → List ModelValueRow → Database
  | .stringValue, l => { db with model_string_values := l }
  | .integerValue, l => { db with model_integer_values := l }
  | .floatValue, l => { db with model_float_values := l }
  | .booleanValue, l => { db with model_boolean_values := l }

/-- The error message of a rejected duplicate insert. -/
def unique_violation_msg : String := "duplicate key value violates unique constraint"

/-- SQL insert into a location value table under the
`UniqueConstraint ("identifier_id", "location_id")` declared on each of
the four tables in structure.py: an existing row with the same key makes
the insert fail with a uniqueness violation and no state change.  (Row
order within a table carries no meaning.) -/
def insert_location_value (db : Database) (t : LocationValueTable)
    (r : LocationValueRow) : Except String Database :=
  if (location_value_table_rows db t).any fun r2 =>
      decide (r2.identifier_id = r.identifier_id) &&
        decide (r2.location_id = r.location_id)
  then .error unique_violation_msg
  else .ok (set_location_value_rows db t (r :: location_value_table_rows db t))

/-- SQL insert into a sensor reading table under the
`UniqueConstraint ("measure_id", "sensor_id", "timestamp")` declared on
each of the four tables in structure.py. -/
def insert_sensor_reading (db : Database) (t : SensorReadingTable)
    (r : SensorReadingRow) : Except String Database :=
  if (sensor_reading_table_rows db t).any fun r2 =>
      decide (r2.measure_id = r.measure_id) && decide (r2.sensor_id = r.sensor_id)
        && decide (r2.timestamp = r.timestamp)
  then .error unique_violation_msg
  else .ok (set_sensor_reading_rows db t (r :: sensor_reading_table_rows db t))

/-- SQL insert into a model value table under the
`UniqueConstraint ("product_id", "timestamp")` declared on each of the
four tables in structure.py (the model product already fixes the
run-and-measure pair, by its own unique constraint). -/
def insert_model_value (db : Database) (t : ModelValueTable)
    (r : ModelValueRow) : Except String Database :=
  if (model_value_table_rows db t).any fun r2 =>
      decide (r2.product_id = r.product_id) && decide (r2.timestamp = r.timestamp)
  then .error unique_violation_msg
  else .ok (set_model_value_rows db t (r :: model_value_table_rows db t))

/-- The uniqueness invariant of the four location value tables: no two
rows share the `(identifier_id, location_id)` key. -/
def location_values_unique (db : Database) : Prop :=
  ((db.location_string_values.map fun r => (r.identifier_id, r.location_id)).Nodup) ∧
  ((db.location_integer_values.map fun r => (r.identifier_id, r.location_id)).Nodup) ∧
  ((db.location_float_values.map fun r => (r.identifier_id, r.location_id)).Nodup) ∧
  ((db.location_boolean_values.map fun r => (r.identifier_id, r.location_id)).Nodup)

/-- The uniqueness invariant of the four sensor reading tables: no two
rows share the `(measure_id, sensor_id, timestamp)` key. -/
def sensor_readings_unique (db : Database) : Prop :=
  ((db.sensor_string_readings.map fun r => (r.measure_id, r.sensor_id, r.timestamp)).Nodup) ∧
  ((db.sensor_integer_readings.map fun r => (r.measure_id, r.sensor_id, r.timestamp)).Nodup) ∧
  ((db.sensor_float_readings.map fun r => (r.measure_id, r.sensor_id, r.timestamp)).Nodup) ∧
  ((db.sensor_boolean_readings.map fun r => (r.measure_id, r.sensor_id, r.timestamp)).Nodup)

/-- The uniqueness invariant of the four model value tables: no two rows
share the `(product_id, timestamp)` key. -/
def model_values_unique (db : Database) : Prop :=
  ((db.model_string_values.map fun r => (r.product_id, r.timestamp)).Nodup) ∧
  ((db.model_integer_values.map fun r => (r.product_id, r.timestamp)).Nodup) ∧
  ((db.model_float_values.map fun r => (r.product_id, r.timestamp)).Nodup) ∧
  ((db.model_boolean_values.map fun r => (r.product_id, r.timestamp)).Nodup)

/-- The example state of the spec scenario: schema `latlong` with float
identifiers `latitude` (id 1) and `longitude` (id 2), one location (id 1)
with latitude 0 and longitude 10. -/
def db_latlong : Database :=
  ⟨[⟨1, "latlong"⟩],
   [⟨1, "latitude", none, .float⟩, ⟨2, "longitude", none, .float⟩],
   [⟨1, 1⟩, ⟨1, 2⟩],
   [⟨1, 1⟩],
   [], [], [⟨1, 1, .f 0⟩, ⟨2, 1, .f 10⟩], [],
   [], [], [], [], [], [], [],
   [], [], [], [], []⟩

/-- For each of the four datatype enum values, looking the tag up in
`location_value_class_dict` yields exactly the table of
`location_value_table_of_datatype`. -/
theorem location_value_class_of_tag (dt : Datatype) :
    dict_lookup location_value_class_dict (.strLit (datatype_tag dt)) =
      some (location_value_table_of_datatype dt) := by
  cases dt <;> rfl

/-- Sensor analogue of `location_value_class_of_tag`. -/
theorem sensor_reading_class_of_tag (dt : Datatype) :
    dict_lookup sensor_reading_class_dict (.strLit (datatype_tag dt)) =
      some (sensor_reading_table_of_datatype dt) := by
  cases dt <;> rfl

/-- Model analogue of `location_value_class_of_tag`. -/
theorem model_value_class_of_tag (dt : Datatype) :
    dict_lookup model_value_class_dict (.strLit (datatype_tag dt)) =
      some (model_value_table_of_datatype dt) := by
  cases dt <;> rfl

/-- `build_joins` never fails (every datatype enum value has a value
class) and builds exactly one join per resolved identifier, in order. -/
theorem build_joins_eq (kwargs : List (String × DBValue)) :
    ∀ l, build_joins kwargs l = .ok (l.map (joinOf kwargs)) := by
  intro l
  induction l with
  | nil => rfl
  | cons x rest ih =>
    obtain ⟨id_id, id_name, id_dt⟩ := x
    simp only [build_joins, location_value_class_of_tag, ih, List.map_cons, joinOf]

/-- If some keyword argument is not among the identifier names, the
validation loop raises the ValueError of the first such argument. -/
theorem check_kwargs_error {schema_name : String} {names : List String} :
    ∀ {kwargs : List (String × DBValue)},
      (∃ kv ∈ kwargs, kv.1 ∉ names) →
      ∃ key, (∃ v, (key, v) ∈ kwargs) ∧ key ∉ names ∧
        check_kwargs schema_name names kwargs =
          .error (invalid_identifier_msg key schema_name) := by
  intro kwargs
  induction kwargs with
  | nil => rintro ⟨kv, h, _⟩; cases h
  | cons kv rest ih =>
    rintro ⟨kv2, hmem, hnot⟩
    by_cases hk : kv.1 ∈ names
    · have hrest : ∃ kv2 ∈ rest, kv2.1 ∉ names := by
        rcases List.mem_cons.mp hmem with h | h
        · exact absurd (h ▸ hk) hnot
        · exact ⟨kv2, h, hnot⟩
      obtain ⟨key, ⟨v, hv⟩, hnotin, heq⟩ := ih hrest
      refine ⟨key, ⟨v, List.mem_cons_of_mem _ hv⟩, hnotin, ?_⟩
      obtain ⟨k1, v1⟩ := kv
      simpa [check_kwargs, hk] using heq
    · obtain ⟨k1, v1⟩ := kv
      exact ⟨k1, ⟨v1, List.mem_cons_self _ _⟩, hk, by simp [check_kwargs, hk]⟩

/-- A failed keyword validation aborts `select_location_by_coordinates`
with the same error. -/
theorem select_error_of_check {db : Database} {schema_name : String}
    {kwargs : List (String × DBValue)} {e : String}
    (h : check_kwargs schema_name
        ((schema_identifiers db schema_name).map fun x => x.2.1) kwargs = .error e) :
    select_location_by_coordinates db schema_name kwargs = .error e := by
  simp only [select_location_by_coordinates, h]

/-- A successful keyword validation makes
`select_location_by_coordinates` return the query with one join per
resolved identifier. -/
theorem select_ok_of_check {db : Database} {schema_name : String}
    {kwargs : List (String × DBValue)}
    (h : check_kwargs schema_name
        ((schema_identifiers db schema_name).map fun x => x.2.1) kwargs = .ok ()) :
    select_location_by_coordinates db schema_name kwargs =
      .ok ⟨(schema_identifiers db schema_name).map (joinOf kwargs)⟩ := by
  simp only [select_location_by_coordinates, h, build_joins_eq]

/-- Inversion: any query object returned by
`select_location_by_coordinates` is the one-join-per-identifier query. -/
theorem select_ok_inv {db : Database} {schema_name : String}
    {kwargs : List (String × DBValue)} {q : LocationQuery}
    (h : select_location_by_coordinates db schema_name kwargs = .ok q) :
    q = ⟨(schema_identifiers db schema_name).map (joinOf kwargs)⟩ := by
  cases hck : check_kwargs schema_name
      ((schema_identifiers db schema_name).map fun x => x.2.1) kwargs with
  | error e => rw [select_error_of_check hck] at h; cases h
  | ok u =>
    cases u
    rw [select_ok_of_check hck] at h
    cases h
    rfl

/-- C1: if some key of the filter mapping is not among the attribute
names resolved for the grouping in step 1, `select_location_by_coordinates`
raises a ValueError naming the offending key and returns no query object,
hence no partial result. -/
theorem C1_unknown_filter_raises (db : Database) (schema_name : String)
    (kwargs : List (String × DBValue))
    (h : ∃ kv ∈ kwargs, kv.1 ∉ (schema_identifiers db schema_name).map fun x => x.2.1) :
    ∃ key, (∃ v, (key, v) ∈ kwargs) ∧
      (key ∉ (schema_identifiers db schema_name).map fun x => x.2.1) ∧
      select_location_by_coordinates db schema_name kwargs =
        .error (invalid_identifier_msg key schema_name) ∧
      ∀ q, select_location_by_coordinates db schema_name kwargs ≠ .ok q := by
  obtain ⟨key, hv, hnotin, heq⟩ := check_kwargs_error h
  refine ⟨key, hv, hnotin, select_error_of_check heq, ?_⟩
  intro q hq
  rw [select_error_of_check heq] at hq
  cases hq

/-- Witness for C1 on the spec scenario state with an extraneous filter
key. -/
theorem C1_unknown_filter_raises_witness :
    ∃ key, (∃ v, (key, v) ∈ [("bogus", DBValue.f 1)]) ∧
      (key ∉ (schema_identifiers db_latlong "latlong").map fun x => x.2.1) ∧
      select_location_by_coordinates db_latlong "latlong" [("bogus", DBValue.f 1)] =
        .error (invalid_identifier_msg key "latlong") ∧
      ∀ q, select_location_by_coordinates db_latlong "latlong"
          [("bogus", DBValue.f 1)] ≠ .ok q :=
  C1_unknown_filter_raises db_latlong "latlong" [("bogus", DBValue.f 1)] (by decide)

/-- C6: each of the four datatype tags selects, through the explicit
enumerated dictionary of its entity family, exactly one typed value
table, distinct tags selecting distinct tables; a tag outside the four
has no entry in any of the three dictionaries. -/
theorem C6_datatype_selects_one_table (s : String)
    (h1 : s ≠ "string") (h2 : s ≠ "float") (h3 : s ≠ "integer") (h4 : s ≠ "boolean") :
    (∀ dt : Datatype,
        dict_lookup location_value_class_dict (.strLit (datatype_tag dt)) =
          some (location_value_table_of_datatype dt) ∧
        dict_lookup sensor_reading_class_dict (.strLit (datatype_tag dt)) =
          some (sensor_reading_table_of_datatype dt) ∧
        dict_lookup model_value_class_dict (.strLit (datatype_tag dt)) =
          some (model_value_table_of_datatype dt)) ∧
    (∀ dt dt2 : Datatype,
        (location_value_table_of_datatype dt = location_value_table_of_datatype dt2 ∨
         sensor_reading_table_of_datatype dt = sensor_reading_table_of_datatype dt2 ∨
         model_value_table_of_datatype dt = model_value_table_of_datatype dt2) →
          dt = dt2) ∧
    dict_lookup location_value_class_dict (.strLit s) = none ∧
    dict_lookup sensor_reading_class_dict (.strLit s) = none ∧
    dict_lookup model_value_class_dict (.strLit s) = none := by
  refine ⟨?_, ?_, ?_, ?_, ?_⟩
  · intro dt
    exact ⟨location_value_class_of_tag dt, sensor_reading_class_of_tag dt,
      model_value_class_of_tag dt⟩
  · intro dt dt2 h
    cases dt <;> cases dt2 <;>
      simp_all [location_value_table_of_datatype, sensor_reading_table_of_datatype,
        model_value_table_of_datatype]
  · simp [location_value_class_dict, dict_lookup,
      Ne.symm h1, Ne.symm h2, Ne.symm h3, Ne.symm h4]
  · simp [sensor_reading_class_dict, dict_lookup,
      Ne.symm h1, Ne.symm h2, Ne.symm h3, Ne.symm h4]
  · simp [model_value_class_dict, dict_lookup,
      Ne.symm h1, Ne.symm h2, Ne.symm h3, Ne.symm h4]

/-- Witness for C6 at the unsupported tag `datetime`. -/
theorem C6_datatype_selects_one_table_witness :
    dict_lookup location_value_class_dict (.strLit "datetime") = none ∧
    dict_lookup sensor_reading_class_dict (.strLit "datetime") = none ∧
    dict_lookup model_value_class_dict (.strLit "datetime") = none :=
  (C6_datatype_selects_one_table "datetime" (by decide) (by decide) (by decide)
    (by decide)).2.2

/-- C9: `check_datatype` returns True exactly when the Python runtime
type of the value matches the named datatype, except that booleans also
pass the integer check (Python bool is a subtype of int); ints do not
pass the boolean check and bools do not pass the float check; an
unrecognised datatype name raises ValueError. -/
theorem C9_check_datatype (v : PyVal) (name : String) :
    (name ∈ ["string", "integer", "float", "boolean"] →
      (check_datatype v name = .ok true ↔
        (py_datatype_name v = name ∨ (name = "integer" ∧ isinstance_bool v = true)))) ∧
    (∀ b, check_datatype (.bool b) "integer" = .ok true) ∧
    (∀ n, check_datatype (.int n) "boolean" = .ok false) ∧
    (∀ b, check_datatype (.bool b) "float" = .ok false) ∧
    (name ∉ ["string", "integer", "float", "boolean"] →
      check_datatype v name = .error ("Unrecognised datatype: " ++ name)) := by
  refine ⟨?_, ?_, ?_, ?_, ?_⟩
  · intro hmem
    simp only [List.mem_cons, List.not_mem_nil, or_false] at hmem
    rcases hmem with rfl | rfl | rfl | rfl <;> cases v <;>
      simp [check_datatype, py_datatype_name, isinstance_str, isinstance_int,
        isinstance_float, isinstance_bool]
  · intro b; rfl
  · intro n; rfl
  · intro b; rfl
  · intro hmem
    simp only [List.mem_cons, List.not_mem_nil, or_false, not_or] at hmem
    obtain ⟨hs, hi, hf, hb⟩ := hmem
    simp [check_datatype, hs, hi, hf, hb]

/-- Witness for C9 at a boolean value checked against `integer`. -/
theorem C9_check_datatype_witness :
    (check_datatype (.bool true) "integer" = .ok true ↔
      (py_datatype_name (.bool true) = "integer" ∨
        ("integer" = "integer" ∧ isinstance_bool (.bool true) = true))) ∧
    check_datatype (.str "x") "datetime" =
      .error ("Unrecognised datatype: " ++ "datetime") :=
  ⟨(C9_check_datatype (.bool true) "integer").1 (by decide),
   (C9_check_datatype (.str "x") "datetime").2.2.2.2 (by decide)⟩

/-- A filter for one key over a list whose keys are pairwise distinct
keeps at most one element. -/
theorem length_filter_key_le_one {α κ : Type} [DecidableEq κ] (f : α → κ) (k : κ)
    (l : List α) (h : (l.map f).Nodup) :
    (l.filter fun x => decide (f x = k)).length ≤ 1 := by
  induction l with
  | nil => simp
  | cons a t ih =>
    rw [List.map_cons, List.nodup_cons] at h
    obtain ⟨hna, hnd⟩ := h
    by_cases hak : f a = k
    · have ht : t.filter (fun x => decide (f x = k)) = [] := by
        apply List.filter_eq_nil_iff.mpr
        intro x hx hfx
        exact hna (List.mem_map.mpr ⟨x, hx, (of_decide_eq_true hfx).trans hak.symm⟩)
      simp [List.filter_cons, hak, ht]
    · simp only [List.filter_cons, decide_eq_true_eq, hak, if_false]
      exact ih hnd

/-- With pairwise distinct keys, the one-key filter keeps exactly one
element precisely when some element has the key, and none otherwise. -/
theorem filter_key_length_eq_ite {α κ : Type} [DecidableEq κ] (f : α → κ) (k : κ)
    (l : List α) (h : (l.map f).Nodup) :
    (l.filter fun x => decide (f x = k)).length =
      if ∃ x ∈ l, f x = k then 1 else 0 := by
  by_cases hex : ∃ x ∈ l, f x = k
  · rw [if_pos hex]
    obtain ⟨x, hx, hfx⟩ := hex
    have hle := length_filter_key_le_one f k l h
    have hpos : 0 < (l.filter fun x => decide (f x = k)).length := by
      rw [List.length_pos]
      intro he
      exact List.filter_eq_nil_iff.mp he x hx (decide_eq_true hfx)
    omega
  · rw [if_neg hex, List.length_eq_zero]
    apply List.filter_eq_nil_iff.mpr
    intro x hx hfx
    exact hex ⟨x, hx, of_decide_eq_true hfx⟩

/-- The uniqueness invariant, read off for a single table. -/
theorem location_values_unique_table {db : Database}
    (h : location_values_unique db) (t : LocationValueTable) :
    ((location_value_table_rows db t).map
      fun r => (r.identifier_id, r.location_id)).Nodup := by
  cases t
  · exact h.1
  · exact h.2.1
  · exact h.2.2.1
  · exact h.2.2.2

/-- With no filter supplied, the candidate rows of the join built for an
identifier are exactly the table rows keyed by that identifier and the
location. -/
theorem joinCandidateRows_empty_filter (db : Database) (i : Nat)
    (x : Nat × String × Datatype) :
    joinCandidateRows db i (joinOf [] x) =
      (location_value_table_rows db (location_value_table_of_datatype x.2.2)).filter
        fun r => decide ((r.identifier_id, r.location_id) = (x.1, i)) := by
  simp only [joinCandidateRows, joinOf, filterHolds]
  apply List.filter_congr
  intro r _
  simp only [List.lookup_nil, Bool.and_true]
  by_cases h1 : r.identifier_id = x.1 <;> by_cases h2 : r.location_id = i <;>
    simp [h1, h2, Prod.ext_iff]

/-- The sum of a constant mapped over a list. -/
theorem sum_map_const_nat {α : Type} (l : List α) (n : Nat) :
    (l.map fun _ => n).sum = l.length * n := by
  induction l with
  | nil => simp
  | cons a t ih => simp [ih, Nat.succ_mul, Nat.add_comm]

/-- The number of result tuples of the inner joins for one location is
the product of the candidate counts of the joins. -/
theorem joinCombos_length (db : Database) (i : Nat) :
    ∀ js : List LocationJoin,
      (joinCombos db i js).length =
        (js.map fun j => (joinCandidateRows db i j).length).prod := by
  intro js
  induction js with
  | nil => rfl
  | cons j js ih =>
    simp only [joinCombos, List.length_flatMap, List.map_map, Function.comp_def,
      List.length_map, List.map_cons, List.prod_cons]
    rw [sum_map_const_nat, ih]

/-- A product of naturals that are each at most one is one when all are
one and zero otherwise. -/
theorem prod_of_le_one (l : List Nat) (h : ∀ x ∈ l, x ≤ 1) :
    l.prod = if ∀ x ∈ l, x = 1 then 1 else 0 := by
  induction l with
  | nil => simp
  | cons a t ih =>
    have ha := h a (List.mem_cons_self a t)
    have ht := ih fun x hx => h x (List.mem_cons_of_mem a hx)
    rcases Nat.le_one_iff_eq_zero_or_eq_one.mp ha with rfl | rfl
    · simp
    · simp [ht, List.forall_mem_cons]

/-- Counting the result rows for one location id across the whole result
set: with pairwise distinct location ids, only that location contributes,
one row per join combination. -/
theorem countP_eval (db : Database) (q : LocationQuery) (locId : Nat) :
    ∀ ls : List LocationRow, (ls.map fun l => l.id).Nodup →
      (∃ l ∈ ls, l.id = locId) →
      ((ls.flatMap fun loc => (joinCombos db loc.id q.joins).map fun vs =>
          (⟨loc.id, (q.joins.map fun j => j.label).zip vs⟩ : ResultRow)).countP
        fun row => decide (row.id = locId)) = (joinCombos db locId q.joins).length := by
  intro ls
  induction ls with
  | nil => rintro _ ⟨l, hl, _⟩; cases hl
  | cons a t ih =>
    intro hnd hex
    rw [List.flatMap_cons, List.countP_append]
    rw [List.map_cons, List.nodup_cons] at hnd
    obtain ⟨hna, hndt⟩ := hnd
    by_cases ha : a.id = locId
    · have h1 : ((joinCombos db a.id q.joins).map fun vs =>
          (⟨a.id, (q.joins.map fun j => j.label).zip vs⟩ : ResultRow)).countP
            (fun row => decide (row.id = locId)) = (joinCombos db a.id q.joins).length := by
        rw [List.countP_map]
        simp [Function.comp, ha]
      have h2 : (t.flatMap fun loc => (joinCombos db loc.id q.joins).map fun vs =>
          (⟨loc.id, (q.joins.map fun j => j.label).zip vs⟩ : ResultRow)).countP
            (fun row => decide (row.id = locId)) = 0 := by
        apply List.countP_eq_zero.mpr
        intro row hrow
        obtain ⟨l, hl, hrow2⟩ := List.mem_flatMap.mp hrow
        obtain ⟨vs, _, rfl⟩ := List.mem_map.mp hrow2
        simp only [decide_eq_true_eq]
        intro hid
        exact hna (List.mem_map.mpr ⟨l, hl, hid.trans ha.symm⟩)
      rw [h1, h2, ha, Nat.add_zero]
    · have h1 : ((joinCombos db a.id q.joins).map fun vs =>
          (⟨a.id, (q.joins.map fun j => j.label).zip vs⟩ : ResultRow)).countP
            (fun row => decide (row.id = locId)) = 0 := by
        apply List.countP_eq_zero.mpr
        intro row hrow
        obtain ⟨vs, _, rfl⟩ := List.mem_map.mp hrow
        simp [ha]
      have hex2 : ∃ l ∈ t, l.id = locId := by
        obtain ⟨l, hl, hid⟩ := hex
        rcases List.mem_cons.mp hl with rfl | hl2
        · exact absurd hid ha
        · exact ⟨l, hl2, hid⟩
      rw [h1, ih hndt hex2, Nat.zero_add]

/-- Membership in the candidate rows of a join is exactly the
conjunction of its join conditions. -/
theorem mem_joinCandidateRows {db : Database} {locId : Nat} {j : LocationJoin}
    {r : LocationValueRow} :
    r ∈ joinCandidateRows db locId j ↔
      r ∈ location_value_table_rows db j.table ∧ r.location_id = locId ∧
        r.identifier_id = j.identifier_id ∧ filterHolds j r = true := by
  simp [joinCandidateRows, List.mem_filter, and_assoc]

/-- A value filter recorded on a join means the candidate test compares
the stored value. -/
theorem filterHolds_of_some {j : LocationJoin} {r : LocationValueRow} {v : DBValue}
    (h : j.filter_value = some v) : filterHolds j r = decide (r.value = v) := by
  unfold filterHolds
  rw [h]

/-- Membership in the join combinations: one candidate row chosen
independently per join, in order. -/
theorem mem_joinCombos {db : Database} {locId : Nat} :
    ∀ {js : List LocationJoin} {vs : List DBValue},
      vs ∈ joinCombos db locId js ↔
        ∃ rs, List.Forall₂ (fun j r => r ∈ joinCandidateRows db locId j) js rs ∧
          vs = rs.map fun r => r.value := by
  intro js
  induction js with
  | nil =>
    intro vs
    constructor
    · intro h
      rcases List.mem_singleton.mp h with rfl
      exact ⟨[], List.Forall₂.nil, rfl⟩
    · rintro ⟨rs, hf, rfl⟩
      cases hf
      simp [joinCombos]
  | cons j js ih =>
    intro vs
    constructor
    · intro h
      simp only [joinCombos] at h
      rcases List.mem_flatMap.mp h with ⟨r, hr, h2⟩
      rcases List.mem_map.mp h2 with ⟨vs2, hvs2, rfl⟩
      rcases ih.mp hvs2 with ⟨rs, hf, rfl⟩
      exact ⟨r :: rs, List.Forall₂.cons hr hf, rfl⟩
    · rintro ⟨rs, hf, rfl⟩
      cases hf with
      | cons hr hf2 =>
        simp only [joinCombos]
        exact List.mem_flatMap.mpr ⟨_, hr, List.mem_map.mpr ⟨_, ih.mpr ⟨_, hf2, rfl⟩, rfl⟩⟩

/-- Membership in the result set of the built query. -/
theorem mem_evalLocationQuery {db : Database} {q : LocationQuery} {row : ResultRow} :
    row ∈ evalLocationQuery db q ↔
      ∃ loc ∈ db.locations, ∃ rs,
        List.Forall₂ (fun j r => r ∈ joinCandidateRows db loc.id j) q.joins rs ∧
        row = ⟨loc.id, (q.joins.map fun j => j.label).zip (rs.map fun r => r.value)⟩ := by
  simp only [evalLocationQuery, List.mem_flatMap, List.mem_map]
  constructor
  · rintro ⟨loc, hloc, vs, hvs, hrow⟩
    rcases mem_joinCombos.mp hvs with ⟨rs, hf, rfl⟩
    exact ⟨loc, hloc, rs, hf, hrow.symm⟩
  · rintro ⟨loc, hloc, rs, hf, rfl⟩
    exact ⟨loc, hloc, _, mem_joinCombos.mpr ⟨rs, hf, rfl⟩, rfl⟩

/-- From a pointwise relation between two lists, every member of the
first has a related member of the second. -/
theorem forall₂_exists_of_mem {α β : Type} {R : α → β → Prop}
    {l1 : List α} {l2 : List β} (h : List.Forall₂ R l1 l2) :
    ∀ {a}, a ∈ l1 → ∃ b ∈ l2, R a b := by
  induction h with
  | nil => intro a ha; cases ha
  | cons hr hf ih =>
    intro a ha
    rcases List.mem_cons.mp ha with rfl | ha2
    · exact ⟨_, List.mem_cons_self _ _, hr⟩
    · rcases ih ha2 with ⟨b, hb, hrb⟩
      exact ⟨b, List.mem_cons_of_mem _ hb, hrb⟩

/-- C2: with empty filters the query carries no value conditions, its
columns are the location id plus one value column per attribute labelled
by the attribute name, and (the joins all being inner joins) a location
appears in the result exactly once when it has a stored value for every
attribute of the grouping and not at all when it lacks one. -/
theorem C2_complete_value_membership (db : Database) (G : String)
    (hloc : (db.locations.map fun l => l.id).Nodup)
    (hvals : location_values_unique db)
    (q : LocationQuery)
    (hq : select_location_by_coordinates db G [] = .ok q) :
    ((q.joins.map fun j => j.label) = (schema_identifiers db G).map fun x => x.2.1) ∧
    (∀ j ∈ q.joins, j.filter_value = none) ∧
    ∀ loc ∈ db.locations,
      ((evalLocationQuery db q).countP fun row => decide (row.id = loc.id)) =
        if ∀ x ∈ schema_identifiers db G,
            ∃ r ∈ location_value_table_rows db (location_value_table_of_datatype x.2.2),
              r.identifier_id = x.1 ∧ r.location_id = loc.id
        then 1 else 0 := by
  have hqe := select_ok_inv hq
  subst hqe
  refine ⟨?_, ?_, ?_⟩
  · rw [List.map_map]; rfl
  · intro j hj
    obtain ⟨x, _, rfl⟩ := List.mem_map.mp hj
    rfl
  · intro loc hmem
    have hcount := countP_eval db ⟨(schema_identifiers db G).map (joinOf [])⟩ loc.id
      db.locations hloc ⟨loc, hmem, rfl⟩
    unfold evalLocationQuery
    rw [hcount, joinCombos_length]
    simp only [List.map_map, Function.comp_def]
    have hlen : ∀ x ∈ schema_identifiers db G,
        (joinCandidateRows db loc.id (joinOf [] x)).length =
          if ∃ r ∈ location_value_table_rows db (location_value_table_of_datatype x.2.2),
              r.identifier_id = x.1 ∧ r.location_id = loc.id
          then 1 else 0 := by
      intro x _
      rw [joinCandidateRows_empty_filter,
        filter_key_length_eq_ite _ _ _ (location_values_unique_table hvals _)]
      simp only [Prod.mk.injEq]
    have hle : ∀ y ∈ (schema_identifiers db G).map
        fun x => (joinCandidateRows db loc.id (joinOf [] x)).length, y ≤ 1 := by
      intro y hy
      obtain ⟨x, hx, rfl⟩ := List.mem_map.mp hy
      rw [hlen x hx]
      split <;> omega
    rw [prod_of_le_one _ hle]
    apply if_congr _ rfl rfl
    constructor
    · intro hall x hx
      have h1 := hall _ (List.mem_map.mpr ⟨x, hx, rfl⟩)
      rw [hlen x hx] at h1
      by_contra hno
      rw [if_neg hno] at h1
      exact absurd h1 (by omega)
    · intro hall y hy
      obtain ⟨x, hx, rfl⟩ := List.mem_map.mp hy
      rw [hlen x hx, if_pos (hall x hx)]

/-- Witness for C2 on the spec scenario: the single complete location
appears exactly once. -/
theorem C2_complete_value_membership_witness :
    ((evalLocationQuery db_latlong
        ⟨[⟨.floatValue, 1, none, "latitude"⟩, ⟨.floatValue, 2, none, "longitude"⟩]⟩).countP
      fun row => decide (row.id = 1)) = 1 := by
  have h := (C2_complete_value_membership db_latlong "latlong" (by decide)
      ⟨by decide, by decide, by decide, by decide⟩
      ⟨[⟨.floatValue, 1, none, "latitude"⟩, ⟨.floatValue, 2, none, "longitude"⟩]⟩
      rfl).2.2 ⟨1, 1⟩ (by decide)
  rw [if_pos (by decide)] at h
  exact h

/-- C3: the join built for each resolved attribute carries the
conditions `alias.location_id = Location.id` and
`alias.identifier_id = attribute_id`, plus `alias.value = v` exactly when
a filter was supplied for that attribute name; consequently every result
row of the filtered query belongs to a location with a stored value equal
to the filter value for the filtered attribute. -/
theorem C3_filter_adds_value_condition (db : Database) (G attr : String)
    (v : DBValue) (q : LocationQuery)
    (hq : select_location_by_coordinates db G [(attr, v)] = .ok q) :
    (q.joins = (schema_identifiers db G).map (joinOf [(attr, v)]) ∧
      ∀ x ∈ schema_identifiers db G,
        joinOf [(attr, v)] x =
          ⟨location_value_table_of_datatype x.2.2, x.1,
            if x.2.1 = attr then some v else none, x.2.1⟩) ∧
    ∀ row ∈ evalLocationQuery db q, ∀ x ∈ schema_identifiers db G, x.2.1 = attr →
      ∃ r ∈ location_value_table_rows db (location_value_table_of_datatype x.2.2),
        r.location_id = row.id ∧ r.identifier_id = x.1 ∧ r.value = v := by
  have hqe := select_ok_inv hq
  subst hqe
  refine ⟨⟨rfl, ?_⟩, ?_⟩
  · intro x _
    simp only [joinOf, List.lookup]
    by_cases h : x.2.1 = attr
    · simp [h]
    · simp [h, beq_false_of_ne h]
  · intro row hrow x hx hname
    rcases mem_evalLocationQuery.mp hrow with ⟨loc, hloc, rs, hf, rfl⟩
    have hjmem : joinOf [(attr, v)] x ∈
        (LocationQuery.mk ((schema_identifiers db G).map (joinOf [(attr, v)]))).joins :=
      List.mem_map.mpr ⟨x, hx, rfl⟩
    rcases forall₂_exists_of_mem hf hjmem with ⟨r, _, hr⟩
    rcases mem_joinCandidateRows.mp hr with ⟨hrt, hrloc, hrid, hrfil⟩
    have hjv : (joinOf [(attr, v)] x).filter_value = some v := by
      simp [joinOf, List.lookup, hname]
    rw [filterHolds_of_some hjv] at hrfil
    exact ⟨r, hrt, hrloc, hrid, of_decide_eq_true hrfil⟩

/-- Witness for C3 on the spec scenario with the filter latitude = 0. -/
theorem C3_filter_adds_value_condition_witness :
    ∃ r ∈ location_value_table_rows db_latlong
        (location_value_table_of_datatype Datatype.float),
      r.location_id =
          (⟨1, [("latitude", DBValue.f 0), ("longitude", DBValue.f 10)]⟩ : ResultRow).id ∧
        r.identifier_id = 1 ∧ r.value = DBValue.f 0 :=
  (C3_filter_adds_value_condition db_latlong "latlong" "latitude" (DBValue.f 0)
      ⟨[⟨.floatValue, 1, some (.f 0), "latitude"⟩, ⟨.floatValue, 2, none, "longitude"⟩]⟩
      rfl).2
    ⟨1, [("latitude", DBValue.f 0), ("longitude", DBValue.f 10)]⟩ (by decide)
    (1, "latitude", Datatype.float) (by decide) rfl

/-- Looking up the same position in two lists related pointwise yields
related elements. -/
theorem forall₂_getElem?_of_some {α β : Type} {R : α → β → Prop} :
    ∀ {l1 : List α} {l2 : List β}, List.Forall₂ R l1 l2 →
      ∀ {i : Nat} {a : α}, l1[i]? = some a → ∃ b, l2[i]? = some b ∧ R a b := by
  intro l1 l2 h
  induction h with
  | nil => intro i a ha; simp at ha
  | cons hr hf ih =>
    intro i a ha
    cases i with
    | zero =>
      rw [List.getElem?_cons_zero] at ha
      cases ha
      exact ⟨_, List.getElem?_cons_zero, hr⟩
    | succ n =>
      rw [List.getElem?_cons_succ] at ha
      obtain ⟨b, hb, hrb⟩ := ih ha
      exact ⟨b, by rw [List.getElem?_cons_succ]; exact hb, hrb⟩

/-- A position present in both lists is present in their zip. -/
theorem getElem?_zip_eq_some {α β : Type} :
    ∀ (l1 : List α) (l2 : List β) (i : Nat) (a : α) (b : β),
      l1[i]? = some a → l2[i]? = some b → (l1.zip l2)[i]? = some (a, b) := by
  intro l1
  induction l1 with
  | nil => intro l2 i a b h1 _; simp at h1
  | cons a1 t1 ih =>
    intro l2 i a b h1 h2
    cases l2 with
    | nil => simp at h2
    | cons b1 t2 =>
      cases i with
      | zero =>
        rw [List.getElem?_cons_zero] at h1 h2
        cases h1
        cases h2
        rw [List.zip_cons_cons, List.getElem?_cons_zero]
      | succ n =>
        rw [List.getElem?_cons_succ] at h1 h2
        rw [List.zip_cons_cons, List.getElem?_cons_succ]
        exact ih t2 n a b h1 h2

/-- C10: whenever the resolved attributes of a grouping include two
distinct attributes (at positions `i1` and `i2`) of one shared datatype —
no matter how many other attributes of whatever datatypes the grouping
declares — the builder emits one fresh alias of the datatype-selected
value table per attribute, result membership amounts to choosing one
candidate row per attribute independently, each constrained only by its
own join conditions and filter, and the result column of each of the two
attributes holds the value of its own candidate row. -/
theorem C10_fresh_alias_per_attribute (db : Database) (G : String)
    (kwargs : List (String × DBValue)) (q : LocationQuery)
    (hq : select_location_by_coordinates db G kwargs = .ok q)
    (i1 i2 : Nat) (x1 x2 : Nat × String × Datatype)
    (h1 : (schema_identifiers db G)[i1]? = some x1)
    (h2 : (schema_identifiers db G)[i2]? = some x2)
    (_hne : i1 ≠ i2) (hdt : x1.2.2 = x2.2.2) :
    q.joins = (schema_identifiers db G).map (joinOf kwargs) ∧
    (∀ x ∈ schema_identifiers db G,
      (joinOf kwargs x).table = location_value_table_of_datatype x.2.2) ∧
    (joinOf kwargs x2).table = (joinOf kwargs x1).table ∧
    (∀ row : ResultRow,
      row ∈ evalLocationQuery db q ↔
        ∃ loc ∈ db.locations, ∃ rs,
          List.Forall₂ (fun j r => r ∈ joinCandidateRows db loc.id j) q.joins rs ∧
          row = ⟨loc.id,
            (q.joins.map fun j => j.label).zip (rs.map fun r => r.value)⟩) ∧
    ∀ row ∈ evalLocationQuery db q,
      ∃ r1 ∈ location_value_table_rows db (location_value_table_of_datatype x1.2.2),
        ∃ r2 ∈ location_value_table_rows db (location_value_table_of_datatype x1.2.2),
          r1.location_id = row.id ∧ r1.identifier_id = x1.1 ∧
            filterHolds (joinOf kwargs x1) r1 = true ∧
          r2.location_id = row.id ∧ r2.identifier_id = x2.1 ∧
            filterHolds (joinOf kwargs x2) r2 = true ∧
          row.values[i1]? = some (x1.2.1, r1.value) ∧
          row.values[i2]? = some (x2.2.1, r2.value) := by
  have hqe := select_ok_inv hq
  subst hqe
  refine ⟨rfl, fun x _ => rfl, ?_, fun row => mem_evalLocationQuery, ?_⟩
  · show location_value_table_of_datatype x2.2.2 =
      location_value_table_of_datatype x1.2.2
    rw [hdt]
  · intro row hrow
    rcases mem_evalLocationQuery.mp hrow with ⟨loc, hloc, rs, hf, rfl⟩
    have hj1 : ((schema_identifiers db G).map (joinOf kwargs))[i1]? =
        some (joinOf kwargs x1) := by
      rw [List.getElem?_map, h1]; rfl
    have hj2 : ((schema_identifiers db G).map (joinOf kwargs))[i2]? =
        some (joinOf kwargs x2) := by
      rw [List.getElem?_map, h2]; rfl
    obtain ⟨r1, hrs1, hr1⟩ := forall₂_getElem?_of_some hf hj1
    obtain ⟨r2, hrs2, hr2⟩ := forall₂_getElem?_of_some hf hj2
    rcases mem_joinCandidateRows.mp hr1 with ⟨ht1, hl1, hi1, hfil1⟩
    rcases mem_joinCandidateRows.mp hr2 with ⟨ht2, hl2, hi2, hfil2⟩
    refine ⟨r1, ht1, r2, ?_, hl1, hi1, hfil1, hl2, hi2, hfil2, ?_, ?_⟩
    · rw [hdt]
      exact ht2
    · show ((((schema_identifiers db G).map (joinOf kwargs)).map
          fun j => j.label).zip (rs.map fun r => r.value))[i1]? =
        some (x1.2.1, r1.value)
      apply getElem?_zip_eq_some
      · rw [List.getElem?_map, List.getElem?_map, h1]; rfl
      · rw [List.getElem?_map, hrs1]; rfl
    · show ((((schema_identifiers db G).map (joinOf kwargs)).map
          fun j => j.label).zip (rs.map fun r => r.value))[i2]? =
        some (x2.2.1, r2.value)
      apply getElem?_zip_eq_some
      · rw [List.getElem?_map, List.getElem?_map, h2]; rfl
      · rw [List.getElem?_map, hrs2]; rfl

/-- Witness for C10 on the spec scenario, filtering on latitude = 0: the
two float attributes sit at positions 0 and 1, and the single result row
carries each attribute value from its own value row. -/
theorem C10_fresh_alias_per_attribute_witness :
    ∃ r1 ∈ location_value_table_rows db_latlong
        (location_value_table_of_datatype Datatype.float),
      ∃ r2 ∈ location_value_table_rows db_latlong
          (location_value_table_of_datatype Datatype.float),
        r1.location_id =
            (⟨1, [("latitude", DBValue.f 0),
              ("longitude", DBValue.f 10)]⟩ : ResultRow).id ∧
          r1.identifier_id = 1 ∧
          filterHolds (joinOf [("latitude", DBValue.f 0)]
            (1, "latitude", Datatype.float)) r1 = true ∧
        r2.location_id =
            (⟨1, [("latitude", DBValue.f 0),
              ("longitude", DBValue.f 10)]⟩ : ResultRow).id ∧
          r2.identifier_id = 2 ∧
          filterHolds (joinOf [("latitude", DBValue.f 0)]
            (2, "longitude", Datatype.float)) r2 = true ∧
        (⟨1, [("latitude", DBValue.f 0),
          ("longitude", DBValue.f 10)]⟩ : ResultRow).values[0]? =
            some ("latitude", r1.value) ∧
        (⟨1, [("latitude", DBValue.f 0),
          ("longitude", DBValue.f 10)]⟩ : ResultRow).values[1]? =
            some ("longitude", r2.value) :=
  (C10_fresh_alias_per_attribute db_latlong "latlong" [("latitude", DBValue.f 0)]
      ⟨[⟨.floatValue, 1, some (.f 0), "latitude"⟩,
        ⟨.floatValue, 2, none, "longitude"⟩]⟩
      rfl 0 1 (1, "latitude", Datatype.float) (2, "longitude", Datatype.float)
      (by decide) (by decide) (by decide) rfl).2.2.2.2
    ⟨1, [("latitude", DBValue.f 0), ("longitude", DBValue.f 10)]⟩ (by decide)


/-- Membership in a registry join: a grouping row, a relation row and an
attribute row satisfying the two join conditions. -/
theorem mem_registry_join {G R A Row : Type} {gs : List G} {rs : List R}
    {attrs : List A} {gid : G → Nat} {rgid raid : R → Nat} {aid : A → Nat}
    {mk : G → A → Row} {row : Row} :
    row ∈ registry_join gs rs attrs gid rgid raid aid mk ↔
      ∃ g ∈ gs, ∃ r ∈ rs, rgid r = gid g ∧
        ∃ a ∈ attrs, aid a = raid r ∧ row = mk g a := by
  simp only [registry_join, List.mem_flatMap, List.mem_filter, List.mem_map,
    decide_eq_true_eq]
  constructor
  · rintro ⟨g, hg, r, ⟨hr, hrc⟩, a, ⟨ha, hac⟩, rfl⟩
    exact ⟨g, hg, r, hr, hrc, a, ha, hac, rfl⟩
  · rintro ⟨g, hg, r, hr, hrc, a, ha, hac, rfl⟩
    exact ⟨g, hg, r, ⟨hr, hrc⟩, a, ⟨ha, hac⟩, rfl⟩

/-- Filtering distributes over flatMap. -/
theorem filter_flatMap {α β : Type} (l : List α) (f : α → List β) (p : β → Bool) :
    (l.flatMap f).filter p = l.flatMap fun a => (f a).filter p := by
  induction l with
  | nil => rfl
  | cons a t ih => simp [List.flatMap_cons, List.filter_append, ih]

/-- Pointwise equal block functions give equal flatMaps. -/
theorem flatMap_congr_mem {α β : Type} {l : List α} {f g : α → List β}
    (h : ∀ a ∈ l, f a = g a) : l.flatMap f = l.flatMap g := by
  induction l with
  | nil => rfl
  | cons a t ih =>
    rw [List.flatMap_cons, List.flatMap_cons, h a (List.mem_cons_self _ _),
      ih fun x hx => h x (List.mem_cons_of_mem _ hx)]

/-- A guarded flatMap is the flatMap of the filtered list. -/
theorem flatMap_filter_guard {α β : Type} (l : List α) (f : α → List β)
    (q : α → Bool) :
    (l.flatMap fun a => if q a then f a else []) = (l.filter q).flatMap f := by
  induction l with
  | nil => rfl
  | cons a t ih => by_cases h : q a <;> simp [List.filter_cons, h, ih]

/-- Filtering a registry join on the grouping name restricts the outer
loop to the groupings with that name. -/
theorem registry_filter_name {G R A Row : Type} (gs : List G) (rs : List R)
    (attrs : List A) (gid : G → Nat) (rgid raid : R → Nat) (aid : A → Nat)
    (mk : G → A → Row) (gname : G → String) (rowName : Row → String)
    (hmkName : ∀ g a, rowName (mk g a) = gname g) (nm : String) :
    (registry_join gs rs attrs gid rgid raid aid mk).filter
        (fun row => decide (rowName row = nm)) =
      (gs.filter fun g => decide (gname g = nm)).flatMap fun g =>
        (rs.filter fun r => decide (rgid r = gid g)).flatMap fun r =>
          (attrs.filter fun a => decide (aid a = raid r)).map fun a => mk g a := by
  rw [registry_join, filter_flatMap, ← flatMap_filter_guard]
  apply flatMap_congr_mem
  intro g _
  by_cases hg : gname g = nm
  · rw [if_pos (decide_eq_true hg)]
    apply List.filter_eq_self.mpr
    intro row hrow
    obtain ⟨r, _, hrow2⟩ := List.mem_flatMap.mp hrow
    obtain ⟨a, _, rfl⟩ := List.mem_map.mp hrow2
    exact decide_eq_true ((hmkName g a).trans hg)
  · rw [if_neg (by simpa using hg)]
    apply List.filter_eq_nil_iff.mpr
    intro row hrow hname
    obtain ⟨r, _, hrow2⟩ := List.mem_flatMap.mp hrow
    obtain ⟨a, _, rfl⟩ := List.mem_map.mp hrow2
    exact hg ((hmkName g a).symm.trans (of_decide_eq_true hname))

/-- If no grouping bears the name, the filtered registry is empty. -/
theorem registry_filter_eq_nil {G R A Row : Type} (gs : List G) (rs : List R)
    (attrs : List A) (gid : G → Nat) (rgid raid : R → Nat) (aid : A → Nat)
    (mk : G → A → Row) (gname : G → String) (rowName : Row → String)
    (hmkName : ∀ g a, rowName (mk g a) = gname g) (nm : String)
    (hnone : ∀ g ∈ gs, gname g ≠ nm) :
    (registry_join gs rs attrs gid rgid raid aid mk).filter
      (fun row => decide (rowName row = nm)) = [] := by
  rw [registry_filter_name gs rs attrs gid rgid raid aid mk gname rowName hmkName nm]
  have h0 : gs.filter (fun g => decide (gname g = nm)) = [] :=
    List.filter_eq_nil_iff.mpr fun g hg hd => hnone g hg (of_decide_eq_true hd)
  rw [h0, List.flatMap_nil]

/-- Pairwise distinct key pairs whose first components agree on a list
give pairwise distinct second components. -/
theorem nodup_snd_of_fst_const {R : Type} (l : List R) (f1 f2 : R → Nat) (c : Nat)
    (hnd : (l.map fun r => (f1 r, f2 r)).Nodup)
    (hc : ∀ r ∈ l, f1 r = c) : (l.map f2).Nodup := by
  induction l with
  | nil => simp
  | cons r t ih =>
    rw [List.map_cons, List.nodup_cons] at hnd ⊢
    obtain ⟨hna, hndt⟩ := hnd
    refine ⟨?_, ih hndt fun x hx => hc x (List.mem_cons_of_mem _ hx)⟩
    intro hfx
    obtain ⟨r2, hr2, heq⟩ := List.mem_map.mp hfx
    apply hna
    apply List.mem_map.mpr ⟨r2, hr2, ?_⟩
    rw [hc r2 (List.mem_cons_of_mem _ hr2), hc r (List.mem_cons_self _ _), heq]

/-- A flatMap whose blocks are empty or the singleton of their key is
duplicate-free when the keys are. -/
theorem nodup_blocks_flatMap {R : Type} (h : List R) (key : R → Nat)
    (blocks : R → List Nat)
    (hsub : ∀ r ∈ h, blocks r = [] ∨ blocks r = [key r])
    (hnd : (h.map key).Nodup) : (h.flatMap blocks).Nodup := by
  induction h with
  | nil => simp
  | cons r t ih =>
    rw [List.map_cons, List.nodup_cons] at hnd
    obtain ⟨hna, hndt⟩ := hnd
    rw [List.flatMap_cons]
    apply List.Nodup.append
    · rcases hsub r (List.mem_cons_self _ _) with h0 | h1
      · rw [h0]; exact List.nodup_nil
      · rw [h1]; exact List.nodup_singleton _
    · exact ih (fun x hx => hsub x (List.mem_cons_of_mem _ hx)) hndt
    · intro x hx1 hx2
      rcases hsub r (List.mem_cons_self _ _) with h0 | h1
      · rw [h0] at hx1; cases hx1
      · rw [h1] at hx1
        rcases List.mem_singleton.mp hx1 with rfl
        obtain ⟨r2, hr2, hx2b⟩ := List.mem_flatMap.mp hx2
        rcases hsub r2 (List.mem_cons_of_mem _ hr2) with h2 | h2
        · rw [h2] at hx2b; cases hx2b
        · rw [h2] at hx2b
          have heq := List.mem_singleton.mp hx2b
          exact hna (List.mem_map.mpr ⟨r2, hr2, heq.symm⟩)

/-- A one-key filter of a list with pairwise distinct keys maps under the
key function to the empty list or the singleton of the key. -/
theorem filter_key_map_nil_or_singleton {α κ : Type} [DecidableEq κ]
    (f : α → κ) (k : κ) (l : List α) (h : (l.map f).Nodup) :
    (l.filter fun x => decide (f x = k)).map f = [] ∨
      (l.filter fun x => decide (f x = k)).map f = [k] := by
  have hle := length_filter_key_le_one f k l h
  cases hfl : l.filter fun x => decide (f x = k) with
  | nil => left; rfl
  | cons a t =>
    cases t with
    | cons b t2 => rw [hfl] at hle; simp at hle
    | nil =>
      right
      have hmem : a ∈ l.filter fun x => decide (f x = k) := by
        rw [hfl]; exact List.mem_singleton_self a
      have ha : f a = k := of_decide_eq_true (List.mem_filter.mp hmem).2
      rw [List.map_cons, List.map_nil, ha]

/-- The attribute ids of a registry join filtered to one grouping name
are pairwise distinct whenever the grouping names, the relation pairs and
the attribute ids are. -/
theorem nodup_registry_filter {G R A Row : Type}
    (gs : List G) (rs : List R) (attrs : List A)
    (gid : G → Nat) (rgid raid : R → Nat) (aid : A → Nat) (mk : G → A → Row)
    (gname : G → String) (rowName : Row → String) (rowAttr : Row → Nat)
    (hmkName : ∀ g a, rowName (mk g a) = gname g)
    (hmkAttr : ∀ g a, rowAttr (mk g a) = aid a)
    (nm : String)
    (hgs : (gs.map gname).Nodup)
    (hrs : (rs.map fun r => (rgid r, raid r)).Nodup)
    (hattrs : (attrs.map aid).Nodup) :
    (((registry_join gs rs attrs gid rgid raid aid mk).filter fun row =>
        decide (rowName row = nm)).map rowAttr).Nodup := by
  rw [registry_filter_name gs rs attrs gid rgid raid aid mk gname rowName hmkName nm]
  have hle := length_filter_key_le_one gname nm gs hgs
  cases hfl : gs.filter fun g => decide (gname g = nm) with
  | nil => simp
  | cons g t =>
    cases t with
    | cons b t2 => rw [hfl] at hle; simp at hle
    | nil =>
      rw [List.flatMap_cons, List.flatMap_nil, List.append_nil,
        List.map_flatMap]
      have hrs2 : ((rs.filter fun r => decide (rgid r = gid g)).map raid).Nodup := by
        apply nodup_snd_of_fst_const _ rgid raid (gid g)
        · exact List.Nodup.sublist ((List.filter_sublist _).map _) hrs
        · intro r hr
          exact of_decide_eq_true (List.mem_filter.mp hr).2
      apply nodup_blocks_flatMap _ raid _ ?_ hrs2
      intro r _
      rw [List.map_map]
      have hcomp : (rowAttr ∘ fun a => mk g a) = aid := funext fun a => hmkAttr g a
      rw [hcomp]
      exact filter_key_map_nil_or_singleton aid (raid r) attrs hattrs

/-- The rows of the location registry restricted to a schema name are
exactly the identifier definitions related to a schema of that name. -/
theorem mem_location_schema_registry {db : Database} {G : String}
    {row : IdentifiersBySchemaRow} :
    row ∈ location_schema_registry db G ↔
      ∃ s ∈ db.location_schemas, s.name = G ∧
        ∃ rel ∈ db.location_schema_identifier_relations, rel.schema_id = s.id ∧
          ∃ ident ∈ db.location_identifiers, ident.id = rel.identifier_id ∧
            row = ⟨s.id, s.name, ident.id, ident.name, ident.units, ident.datatype⟩ := by
  unfold location_schema_registry location_identifiers_by_schema
  rw [List.mem_filter, mem_registry_join]
  constructor
  · rintro ⟨⟨s, hs, rel, hrel, hrc, ident, hid, hic, rfl⟩, hname⟩
    exact ⟨s, hs, of_decide_eq_true hname, rel, hrel, hrc, ident, hid, hic, rfl⟩
  · rintro ⟨s, hs, hname, rel, hrel, hrc, ident, hid, hic, rfl⟩
    exact ⟨⟨s, hs, rel, hrel, hrc, ident, hid, hic, rfl⟩, decide_eq_true hname⟩

/-- Sensor analogue of `mem_location_schema_registry`. -/
theorem mem_sensor_type_registry {db : Database} {G : String}
    {row : MeasuresByTypeRow} :
    row ∈ sensor_type_registry db G ↔
      ∃ t ∈ db.sensor_types, t.name = G ∧
        ∃ rel ∈ db.sensor_type_measure_relations, rel.type_id = t.id ∧
          ∃ m ∈ db.sensor_measures, m.id = rel.measure_id ∧
            row = ⟨t.id, t.name, m.id, m.name, m.units, m.datatype⟩ := by
  unfold sensor_type_registry sensor_measures_by_type
  rw [List.mem_filter, mem_registry_join]
  constructor
  · rintro ⟨⟨t, ht, rel, hrel, hrc, m, hm, hmc, rfl⟩, hname⟩
    exact ⟨t, ht, of_decide_eq_true hname, rel, hrel, hrc, m, hm, hmc, rfl⟩
  · rintro ⟨t, ht, hname, rel, hrel, hrc, m, hm, hmc, rfl⟩
    exact ⟨⟨t, ht, rel, hrel, hrc, m, hm, hmc, rfl⟩, decide_eq_true hname⟩

/-- C4: the registry query filtered on one grouping name returns exactly
the attribute definitions related to that grouping through the relation
table, with no duplicate attribute, and the empty sequence when no
grouping bears the name; likewise for the sensor analogue. -/
theorem C4_registry_exact (db : Database) (G : String)
    (hsn : (db.location_schemas.map fun s => s.name).Nodup)
    (hrel : (db.location_schema_identifier_relations.map
      fun rel => (rel.schema_id, rel.identifier_id)).Nodup)
    (hids : (db.location_identifiers.map fun i => i.id).Nodup)
    (htn : (db.sensor_types.map fun t => t.name).Nodup)
    (hsrel : (db.sensor_type_measure_relations.map
      fun rel => (rel.type_id, rel.measure_id)).Nodup)
    (hms : (db.sensor_measures.map fun m => m.id).Nodup) :
    (∀ row : IdentifiersBySchemaRow,
      row ∈ location_schema_registry db G ↔
        ∃ s ∈ db.location_schemas, s.name = G ∧
          ∃ rel ∈ db.location_schema_identifier_relations, rel.schema_id = s.id ∧
            ∃ ident ∈ db.location_identifiers, ident.id = rel.identifier_id ∧
              row = ⟨s.id, s.name, ident.id, ident.name, ident.units,
                ident.datatype⟩) ∧
    ((location_schema_registry db G).map fun row => row.identifier_id).Nodup ∧
    ((∀ s ∈ db.location_schemas, s.name ≠ G) →
      location_schema_registry db G = []) ∧
    (∀ row : MeasuresByTypeRow,
      row ∈ sensor_type_registry db G ↔
        ∃ t ∈ db.sensor_types, t.name = G ∧
          ∃ rel ∈ db.sensor_type_measure_relations, rel.type_id = t.id ∧
            ∃ m ∈ db.sensor_measures, m.id = rel.measure_id ∧
              row = ⟨t.id, t.name, m.id, m.name, m.units, m.datatype⟩) ∧
    ((sensor_type_registry db G).map fun row => row.measure_id).Nodup ∧
    ((∀ t ∈ db.sensor_types, t.name ≠ G) → sensor_type_registry db G = []) := by
  refine ⟨fun row => mem_location_schema_registry, ?_, ?_,
    fun row => mem_sensor_type_registry, ?_, ?_⟩
  · unfold location_schema_registry location_identifiers_by_schema
    exact nodup_registry_filter db.location_schemas
      db.location_schema_identifier_relations db.location_identifiers
      (fun s => s.id) (fun rel => rel.schema_id) (fun rel => rel.identifier_id)
      (fun ident => ident.id)
      (fun s ident => (⟨s.id, s.name, ident.id, ident.name, ident.units, ident.datatype⟩ : IdentifiersBySchemaRow))
      (fun s => s.name) (fun row => row.schema_name) (fun row => row.identifier_id)
      (fun _ _ => rfl) (fun _ _ => rfl) G hsn hrel hids
  · intro hnone
    unfold location_schema_registry location_identifiers_by_schema
    exact registry_filter_eq_nil db.location_schemas
      db.location_schema_identifier_relations db.location_identifiers
      (fun s => s.id) (fun rel => rel.schema_id) (fun rel => rel.identifier_id)
      (fun ident => ident.id)
      (fun s ident => (⟨s.id, s.name, ident.id, ident.name, ident.units, ident.datatype⟩ : IdentifiersBySchemaRow))
      (fun s => s.name) (fun row => row.schema_name)
      (fun _ _ => rfl) G hnone
  · unfold sensor_type_registry sensor_measures_by_type
    exact nodup_registry_filter db.sensor_types db.sensor_type_measure_relations
      db.sensor_measures
      (fun t => t.id) (fun rel => rel.type_id) (fun rel => rel.measure_id)
      (fun m => m.id)
      (fun t m => (⟨t.id, t.name, m.id, m.name, m.units, m.datatype⟩ : MeasuresByTypeRow))
      (fun t => t.name) (fun row => row.type_name) (fun row => row.measure_id)
      (fun _ _ => rfl) (fun _ _ => rfl) G htn hsrel hms
  · intro hnone
    unfold sensor_type_registry sensor_measures_by_type
    exact registry_filter_eq_nil db.sensor_types db.sensor_type_measure_relations
      db.sensor_measures
      (fun t => t.id) (fun rel => rel.type_id) (fun rel => rel.measure_id)
      (fun m => m.id)
      (fun t m => (⟨t.id, t.name, m.id, m.name, m.units, m.datatype⟩ : MeasuresByTypeRow))
      (fun t => t.name) (fun row => row.type_name)
      (fun _ _ => rfl) G hnone

/-- Witness for C4 on the spec scenario state: the latlong registry has
pairwise distinct identifiers, and an unknown grouping name gives the
empty sequence. -/
theorem C4_registry_exact_witness :
    ((location_schema_registry db_latlong "latlong").map
      fun row => row.identifier_id).Nodup ∧
    ((∀ s ∈ db_latlong.location_schemas, s.name ≠ "nosuch") →
      location_schema_registry db_latlong "nosuch" = []) :=
  ⟨(C4_registry_exact db_latlong "latlong" (by decide) (by decide) (by decide)
      (by decide) (by decide) (by decide)).2.1,
   (C4_registry_exact db_latlong "nosuch" (by decide) (by decide) (by decide)
      (by decide) (by decide) (by decide)).2.2.1⟩

/-- A state with one schema named `other` owning one location (id 7), and
no identifiers at all. -/
def db_c5 : Database :=
  ⟨[⟨1, "other"⟩], [], [], [⟨7, 1⟩],
   [], [], [], [],
   [], [], [], [], [], [], [],
   [], [], [], [], []⟩

/-- C5 (failing input): for a grouping name with no declared attributes —
here one that names no schema at all — `select_location_by_coordinates`
raises no error and returns the query with no joins, which evaluates to
one row per location stored in the location table, including the location
of the unrelated schema `other`, instead of the empty result set the
claim describes. -/
theorem C5_empty_grouping_returns_all_locations :
    select_location_by_coordinates db_c5 "nonexistent" [] = .ok ⟨[]⟩ ∧
    evalLocationQuery db_c5 ⟨[]⟩ = [⟨7, []⟩] :=
  ⟨rfl, rfl⟩

/-- A state with one model product (id 1) holding one float value. -/
def db_c7 : Database :=
  ⟨[], [], [], [],
   [], [], [], [],
   [], [], [], [], [], [], [],
   [⟨1, 1, 1⟩], [], [], [⟨1, 0, .f 5⟩], []⟩

/-- A state with one model product (id 2) holding one string value. -/
def db_c7b : Database :=
  ⟨[], [], [], [],
   [], [], [], [],
   [], [], [], [], [], [], [],
   [⟨2, 1, 1⟩], [⟨2, 0, .s "x"⟩], [], [], []⟩

/-- The empty stored state. -/
def db_empty : Database :=
  ⟨[], [], [], [],
   [], [], [], [],
   [], [], [], [], [], [], [],
   [], [], [], [], []⟩

/-- C7 (failing input): structure.py declares ON DELETE CASCADE on the
product foreign key of the string, integer and boolean model value
tables, but not on `ModelFloatValue`, so deleting a model product that
owns a float value fails with a foreign key violation instead of
cascading, while the same delete cascades for a string value. -/
theorem C7_model_float_value_fk_missing_cascade :
    model_string_value_product_fk_cascades = true ∧
    model_integer_value_product_fk_cascades = true ∧
    model_boolean_value_product_fk_cascades = true ∧
    model_float_value_product_fk_cascades = false ∧
    delete_model_product db_c7 1 =
      .error "foreign key violation on model_product delete" ∧
    delete_model_product db_c7b 2 = .ok db_empty :=
  ⟨rfl, rfl, rfl, rfl, rfl, rfl⟩

/-- Prepending a row with a fresh key preserves key distinctness. -/
theorem nodup_map_cons_key {α κ : Type} (key : α → κ) (r : α) (rows : List α)
    (hnd : (rows.map key).Nodup) (hne : ∀ r2 ∈ rows, key r2 ≠ key r) :
    ((r :: rows).map key).Nodup := by
  rw [List.map_cons, List.nodup_cons]
  refine ⟨?_, hnd⟩
  intro hmem
  obtain ⟨r2, hr2, heq⟩ := List.mem_map.mp hmem
  exact hne r2 hr2 heq

/-- A location value insert whose key already exists is rejected. -/
theorem insert_location_value_duplicate {db : Database} {t : LocationValueTable}
    {r : LocationValueRow}
    (h : ∃ r2 ∈ location_value_table_rows db t,
      r2.identifier_id = r.identifier_id ∧ r2.location_id = r.location_id) :
    insert_location_value db t r = .error unique_violation_msg := by
  obtain ⟨r2, hr2, h1, h2⟩ := h
  unfold insert_location_value
  rw [if_pos (List.any_eq_true.mpr ⟨r2, hr2, by simp [h1, h2]⟩)]

/-- A successful location value insert preserves the uniqueness
invariant. -/
theorem insert_location_value_keeps_unique {db : Database}
    {t : LocationValueTable} {r : LocationValueRow} {db2 : Database}
    (hu : location_values_unique db) (hok : insert_location_value db t r = .ok db2) :
    location_values_unique db2 := by
  unfold insert_location_value at hok
  by_cases hany : ((location_value_table_rows db t).any fun r2 =>
      decide (r2.identifier_id = r.identifier_id) &&
        decide (r2.location_id = r.location_id)) = true
  · rw [if_pos hany] at hok; cases hok
  · rw [if_neg hany] at hok
    have hne : ∀ r2 ∈ location_value_table_rows db t,
        (r2.identifier_id, r2.location_id) ≠ (r.identifier_id, r.location_id) := by
      intro r2 hr2 heq
      apply hany
      refine List.any_eq_true.mpr ⟨r2, hr2, ?_⟩
      simp only [Prod.mk.injEq] at heq
      simp [heq.1, heq.2]
    cases hok
    cases t
    · exact ⟨nodup_map_cons_key _ r _ hu.1 hne, hu.2.1, hu.2.2.1, hu.2.2.2⟩
    · exact ⟨hu.1, nodup_map_cons_key _ r _ hu.2.1 hne, hu.2.2.1, hu.2.2.2⟩
    · exact ⟨hu.1, hu.2.1, nodup_map_cons_key _ r _ hu.2.2.1 hne, hu.2.2.2⟩
    · exact ⟨hu.1, hu.2.1, hu.2.2.1, nodup_map_cons_key _ r _ hu.2.2.2 hne⟩

/-- A sensor reading insert whose key already exists is rejected. -/
theorem insert_sensor_reading_duplicate {db : Database} {t : SensorReadingTable}
    {r : SensorReadingRow}
    (h : ∃ r2 ∈ sensor_reading_table_rows db t,
      r2.measure_id = r.measure_id ∧ r2.sensor_id = r.sensor_id ∧
        r2.timestamp = r.timestamp) :
    insert_sensor_reading db t r = .error unique_violation_msg := by
  obtain ⟨r2, hr2, h1, h2, h3⟩ := h
  unfold insert_sensor_reading
  rw [if_pos (List.any_eq_true.mpr ⟨r2, hr2, by simp [h1, h2, h3]⟩)]

/-- A successful sensor reading insert preserves the uniqueness
invariant. -/
theorem insert_sensor_reading_keeps_unique {db : Database}
    {t : SensorReadingTable} {r : SensorReadingRow} {db2 : Database}
    (hu : sensor_readings_unique db) (hok : insert_sensor_reading db t r = .ok db2) :
    sensor_readings_unique db2 := by
  unfold insert_sensor_reading at hok
  by_cases hany : ((sensor_reading_table_rows db t).any fun r2 =>
      decide (r2.measure_id = r.measure_id) && decide (r2.sensor_id = r.sensor_id)
        && decide (r2.timestamp = r.timestamp)) = true
  · rw [if_pos hany] at hok; cases hok
  · rw [if_neg hany] at hok
    have hne : ∀ r2 ∈ sensor_reading_table_rows db t,
        (r2.measure_id, r2.sensor_id, r2.timestamp) ≠
          (r.measure_id, r.sensor_id, r.timestamp) := by
      intro r2 hr2 heq
      apply hany
      refine List.any_eq_true.mpr ⟨r2, hr2, ?_⟩
      simp only [Prod.mk.injEq] at heq
      simp [heq.1, heq.2.1, heq.2.2]
    cases hok
    cases t
    · exact ⟨nodup_map_cons_key _ r _ hu.1 hne, hu.2.1, hu.2.2.1, hu.2.2.2⟩
    · exact ⟨hu.1, nodup_map_cons_key _ r _ hu.2.1 hne, hu.2.2.1, hu.2.2.2⟩
    · exact ⟨hu.1, hu.2.1, nodup_map_cons_key _ r _ hu.2.2.1 hne, hu.2.2.2⟩
    · exact ⟨hu.1, hu.2.1, hu.2.2.1, nodup_map_cons_key _ r _ hu.2.2.2 hne⟩

/-- A model value insert whose key already exists is rejected. -/
theorem insert_model_value_duplicate {db : Database} {t : ModelValueTable}
    {r : ModelValueRow}
    (h : ∃ r2 ∈ model_value_table_rows db t,
      r2.product_id = r.product_id ∧ r2.timestamp = r.timestamp) :
    insert_model_value db t r = .error unique_violation_msg := by
  obtain ⟨r2, hr2, h1, h2⟩ := h
  unfold insert_model_value
  rw [if_pos (List.any_eq_true.mpr ⟨r2, hr2, by simp [h1, h2]⟩)]

/-- A successful model value insert preserves the uniqueness invariant. -/
theorem insert_model_value_keeps_unique {db : Database}
    {t : ModelValueTable} {r : ModelValueRow} {db2 : Database}
    (hu : model_values_unique db) (hok : insert_model_value db t r = .ok db2) :
    model_values_unique db2 := by
  unfold insert_model_value at hok
  by_cases hany : ((model_value_table_rows db t).any fun r2 =>
      decide (r2.product_id = r.product_id) &&
        decide (r2.timestamp = r.timestamp)) = true
  · rw [if_pos hany] at hok; cases hok
  · rw [if_neg hany] at hok
    have hne : ∀ r2 ∈ model_value_table_rows db t,
        (r2.product_id, r2.timestamp) ≠ (r.product_id, r.timestamp) := by
      intro r2 hr2 heq
      apply hany
      refine List.any_eq_true.mpr ⟨r2, hr2, ?_⟩
      simp only [Prod.mk.injEq] at heq
      simp [heq.1, heq.2]
    cases hok
    cases t
    · exact ⟨nodup_map_cons_key _ r _ hu.1 hne, hu.2.1, hu.2.2.1, hu.2.2.2⟩
    · exact ⟨hu.1, nodup_map_cons_key _ r _ hu.2.1 hne, hu.2.2.1, hu.2.2.2⟩
    · exact ⟨hu.1, hu.2.1, nodup_map_cons_key _ r _ hu.2.2.1 hne, hu.2.2.2⟩
    · exact ⟨hu.1, hu.2.1, hu.2.2.1, nodup_map_cons_key _ r _ hu.2.2.2 hne⟩

/-- C8: each typed value table rejects, with a uniqueness violation
propagated to the caller and no state change, a second row with the same
declared key tuple — `(identifier_id, location_id)` for location values,
`(measure_id, sensor_id, timestamp)` for sensor readings, and
`(product_id, timestamp)` for model values (the product already fixing
the run-and-measure pair) — and a successful insert preserves the
at-most-one-row-per-key invariant in every table of every family. -/
theorem C8_unique_key_inserts :
    (∀ (db : Database) (t : LocationValueTable) (r : LocationValueRow),
      (∃ r2 ∈ location_value_table_rows db t,
        r2.identifier_id = r.identifier_id ∧ r2.location_id = r.location_id) →
        insert_location_value db t r = .error unique_violation_msg) ∧
    (∀ (db : Database) (t : LocationValueTable) (r : LocationValueRow)
        (db2 : Database),
      location_values_unique db → insert_location_value db t r = .ok db2 →
        location_values_unique db2) ∧
    (∀ (db : Database) (t : SensorReadingTable) (r : SensorReadingRow),
      (∃ r2 ∈ sensor_reading_table_rows db t,
        r2.measure_id = r.measure_id ∧ r2.sensor_id = r.sensor_id ∧
          r2.timestamp = r.timestamp) →
        insert_sensor_reading db t r = .error unique_violation_msg) ∧
    (∀ (db : Database) (t : SensorReadingTable) (r : SensorReadingRow)
        (db2 : Database),
      sensor_readings_unique db → insert_sensor_reading db t r = .ok db2 →
        sensor_readings_unique db2) ∧
    (∀ (db : Database) (t : ModelValueTable) (r : ModelValueRow),
      (∃ r2 ∈ model_value_table_rows db t,
        r2.product_id = r.product_id ∧ r2.timestamp = r.timestamp) →
        insert_model_value db t r = .error unique_violation_msg) ∧
    (∀ (db : Database) (t : ModelValueTable) (r : ModelValueRow) (db2 : Database),
      model_values_unique db → insert_model_value db t r = .ok db2 →
        model_values_unique db2) :=
  ⟨fun _ _ _ h => insert_location_value_duplicate h,
   fun _ _ _ _ hu hok => insert_location_value_keeps_unique hu hok,
   fun _ _ _ h => insert_sensor_reading_duplicate h,
   fun _ _ _ _ hu hok => insert_sensor_reading_keeps_unique hu hok,
   fun _ _ _ h => insert_model_value_duplicate h,
   fun _ _ _ _ hu hok => insert_model_value_keeps_unique hu hok⟩

/-- Witness for C8: re-inserting the latitude value of the spec scenario
location is rejected. -/
theorem C8_unique_key_inserts_witness :
    insert_location_value db_latlong .floatValue ⟨1, 1, DBValue.f 99⟩ =
      .error unique_violation_msg :=
  C8_unique_key_inserts.1 db_latlong .floatValue ⟨1, 1, DBValue.f 99⟩ (by decide)
